import Mathlib

/-!
Verification of the tk-3dequalizer hooks.

This file gives a shallow embedding of the two Python hook files of the
repository:

* `hooks/tk-multi-loader2/tk-3dequalizer_actions.py` — the sequence-range
  resolver `get_hash_path_and_range_info_from_seq` together with its helpers
  `get_frame_numbers` and `frames_diff`, the batch dispatcher
  `execute_multiple_actions`, and the camera renaming / assignment logic of
  `_import_image_seq`.
* `hooks/tk-multi-snapshot/scene_operation_tk-3dequalizer.py` — the
  `SceneOperation.execute` dispatcher.

Strings are handled as `List Char`; Python exceptions become an explicit
error type; the file system (`glob.glob`) and the 3DEqualizer host API
(`tde4.*`) are abstracted as explicit parameters or as an explicit scene
state, so that every definition stays executable.
-/

/-- Errors that `get_hash_path_and_range_info_from_seq` can raise.
`fileExistence` models `FileExistenceError(path)` (which carries the original
unresolved template path), `inconsistentSteps` models
the inconsistent-frame-steps `ValueError`, `minEmptySeq` models the
`ValueError` Python's `min`/`max` raise on an empty sequence, and
`indexOutOfRange` models the `IndexError` raised by `steps[0]` on an empty
list. -/
inductive SeqError where
  | fileExistence (path : String)
  | inconsistentSteps
  | minEmptySeq
  | indexOutOfRange
deriving DecidableEq

/-- Key function for grouping frames by the difference between frames
(`frames_diff` in the source): given the current and next frame number,
return their difference. -/
def frames_diff (frames : Int × Int) : Int :=
  frames.2 - frames.1

/-- Value of a decimal digit run, as Python's `int` on a digit string. -/
def digitsToNat (ds : List Char) : Nat :=
  ds.foldl (fun a c => 10 * a + (c.toNat - '0'.toNat)) 0

/-- Match of the regex `\.(\d+)\.` anchored at the head of the character
list: a literal dot, a maximal nonempty run of digits, a literal dot.
Returns the captured digit run.  Backtracking cannot produce any other
match here because a shorter digit run would have to be followed by a dot
that is in fact a digit. -/
def matchFrameAt : List Char → Option (List Char)
  | '.' :: rest =>
    let ds := rest.takeWhile Char.isDigit
    let rest' := rest.dropWhile Char.isDigit
    if ds ≠ [] ∧ rest'.head? = some '.' then some ds else none
  | _ => none

/-- Leftmost match of `\.(\d+)\.` in a character list, as Python's
`re.search`: try each start position from the left. -/
def searchFrame : List Char → Option (List Char)
  | [] => none
  | c :: cs =>
    match matchFrameAt (c :: cs) with
    | some ds => some ds
    | none => searchFrame cs

/-- Insertion of an integer into a sorted list, the helper for `pySorted`. -/
def insertSorted (x : Int) : List Int → List Int
  | [] => [x]
  | y :: ys => if x ≤ y then x :: y :: ys else y :: insertSorted x ys

/-- Ascending numeric sort, modelling Python's `sorted` on a list of ints. -/
def pySorted (l : List Int) : List Int :=
  l.foldr insertSorted []

/-- Embedding of `get_frame_numbers(paths)`: for each path, search for
`\.(\d+)\.`, collect `int(match.group(1))` for the paths that match, and
return the sorted list. -/
def get_frame_numbers (paths : List String) : List Int :=
  pySorted (paths.filterMap fun p => (searchFrame p.toList).map fun ds => (digitsToNat ds : Int))

/-- Match of the regex `(%0(\d+)d)` anchored at the head of the character
list: literal `%`, literal `0`, a maximal nonempty digit run, literal `d`.
Returns the whole matched placeholder (group 1) and the digit run
(group 2). -/
def matchSpecAt : List Char → Option (List Char × List Char)
  | '%' :: '0' :: rest =>
    let ds := rest.takeWhile Char.isDigit
    let rest' := rest.dropWhile Char.isDigit
    if ds ≠ [] ∧ rest'.head? = some 'd' then
      some ('%' :: '0' :: (ds ++ ['d']), ds)
    else none
  | _ => none

/-- Leftmost match of `(%0(\d+)d)` in a character list, as Python's
`re.search`. -/
def searchSpec : List Char → Option (List Char × List Char)
  | [] => none
  | c :: cs =>
    match matchSpecAt (c :: cs) with
    | some m => some m
    | none => searchSpec cs

/-- Fuelled worker for `pyReplace`.  The fuel is the length of the subject
string; since the pattern is nonempty in every use, one unit of fuel per
consumed character suffices. -/
def pyReplaceAux (pat repl : List Char) : Nat → List Char → List Char
  | _, [] => []
  | 0, l => l
  | fuel + 1, c :: cs =>
    if pat.isPrefixOf (c :: cs) then
      repl ++ pyReplaceAux pat repl fuel ((c :: cs).drop pat.length)
    else
      c :: pyReplaceAux pat repl fuel cs

/-- Embedding of Python's `str.replace`: replace every (non-overlapping,
leftmost-first) occurrence of `pat` in `s` by `repl`. -/
def pyReplace (s pat repl : List Char) : List Char :=
  pyReplaceAux pat repl s.length s

/-- Worker for `groupKeys`: `k` is the key of the current run. -/
def groupKeysAux (k : Int) : List Int → List Int
  | [] => []
  | x :: xs => if x == k then groupKeysAux k xs else x :: groupKeysAux x xs

/-- Keys of the maximal runs of equal elements, in order: exactly the list
`steps` built by iterating `itertools.groupby(..., frames_diff)` and
appending each group key. -/
def groupKeys : List Int → List Int
  | [] => []
  | k :: ks => k :: groupKeysAux k ks

/-- List of consecutive differences of a list, as
`izip(numbers[:-1], numbers[1:])` mapped through `frames_diff`. -/
def consecDiffs (ns : List Int) : List Int :=
  (ns.dropLast.zip ns.tail).map frames_diff

/-- Step keys computed by the source's `groupby` loop from a (sorted) list
of frame numbers: keys of the maximal runs of equal consecutive
differences. -/
def stepsOf (ns : List Int) : List Int :=
  groupKeys (consecDiffs ns)

/-- Embedding of `get_hash_path_and_range_info_from_seq(path)`.  The file
system is abstracted as `globfn`, the result of `glob.glob` on the
wildcarded path.  Mirrors the source line by line: search for the `%0Nd`
placeholder; if absent return `(path, 1, 1, 1)`; otherwise glob, extract
frame numbers, raise `FileExistenceError(path)` on no files, build the run
keys `steps`, raise `ValueError` when `len(steps) > 1`, replace the
placeholder by `#` times the declared width, and return
`(path, min(numbers), max(numbers), steps[0])` — where `min`/`max` raise on
an empty list and `steps[0]` raises on an empty `steps`. -/
def get_hash_path_and_range_info_from_seq (globfn : String → List String)
    (path : String) : Except SeqError (String × Int × Int × Int) :=
  match searchSpec path.toList with
  | none => .ok (path, 1, 1, 1)
  | some (frame_spec, widthDigits) =>
    let frame_files := globfn (String.mk (pyReplace path.toList frame_spec ['*']))
    let numbers := get_frame_numbers frame_files
    if frame_files = [] then
      .error (.fileExistence path)
    else
      let steps := stepsOf numbers
      if 1 < steps.length then
        .error .inconsistentSteps
      else
        let newPath :=
          String.mk (pyReplace path.toList frame_spec
            (List.replicate (digitsToNat widthDigits) '#'))
        match numbers.min? with
        | none => .error .minEmptySeq
        | some mn =>
          match numbers.max? with
          | none => .error .minEmptySeq
          | some mx =>
            match steps.head? with
            | none => .error .indexOutOfRange
            | some st => .ok (newPath, mn, mx, st)

/-- Arithmetic-progression predicate with common difference `d`: every
consecutive pair of the list differs by `d`.  Used to state the claims about
uniformly stepped frame lists. -/
def isAP (d : Int) : List Int → Bool
  | [] => true
  | [_] => true
  | a :: b :: rest => (b - a == d) && isAP d (b :: rest)

/-- An entry of the `actions` list handed to `execute_multiple_actions`:
a dictionary with keys `name`, `sg_publish_data` and `params`. -/
structure LoaderAction (α β : Type) where
  name : String
  sg_publish_data : α
  params : β

/-- Embedding of `TDE4Actions.execute_multiple_actions`: iterate over the
action list in order and dispatch each entry to `execute_action` (abstracted
as a state transformer that can also raise).  An exception raised by one
dispatch propagates: the already-threaded state is kept and no further entry
is dispatched. -/
def execute_multiple_actions {σ α β ε : Type}
    (execute_action : String → β → α → σ → σ × Option ε) :
    List (LoaderAction α β) → σ → σ × Option ε
  | [], s => (s, none)
  | act :: rest, s =>
    match execute_action act.name act.params act.sg_publish_data s with
    | (s', none) => execute_multiple_actions execute_action rest s'
    | (s', some e) => (s', some e)

/-- Python format with the 02 width specifier on a natural number: decimal
digits, zero-padded on the left to a minimum width of two. -/
def pyFormat02 (n : Nat) : String :=
  if n < 10 then "0" ++ toString n else toString n

/-- Candidate camera name after `count` collisions, following
`_import_image_seq`: the base name itself for `count = 0`, and the base name
followed by a double underscore and the two-digit zero-padded counter
afterwards. -/
def camNameCandidate (base : String) (count : Nat) : String :=
  if count = 0 then base else base ++ "__" ++ pyFormat02 count

/-- Embedding of the collision loop of `_import_image_seq`: starting from
the base name, while the host still finds a camera with the candidate name,
increment the counter and retry with the next suffixed candidate.  The host
lookup is abstracted as the predicate `find`; the fuel bounds the number of
loop iterations and `none` means the fuel ran out before a free name was
found. -/
def assignCameraName (find : String → Bool) (base : String) :
    Nat → Nat → Option String
  | 0, _ => none
  | fuel + 1, count =>
    let cam_name := camNameCandidate base count
    if find cam_name then assignCameraName find base fuel (count + 1)
    else some cam_name

/-- State of one 3DEqualizer camera, as far as `_import_image_seq` touches
it: its name and the four attributes the import loop sets.  The attributes
start out as `none`, meaning never yet set by the hook. -/
structure TDECamera where
  name : String
  seqAttr : Option (Int × Int × Int) := none
  frameOffset : Option Int := none
  rangeCalcFlag : Option Int := none
  camPath : Option String := none
deriving DecidableEq

/-- Update of the camera with id `camId` in a scene (an association list
from camera id to camera state) by `f`, leaving every other camera
untouched.  All the `tde4.setCamera*` calls are instances of this. -/
def setCam (f : TDECamera → TDECamera) (camId : Nat)
    (cams : List (Nat × TDECamera)) : List (Nat × TDECamera) :=
  cams.map fun c => if c.1 = camId then (c.1, f c.2) else c

/-- Embedding of `tde4.getCameraName`. -/
def getCameraName (cams : List (Nat × TDECamera)) (camId : Nat) : String :=
  match cams.lookup camId with
  | some cam => cam.name
  | none => ""

/-- Embedding of `tde4.findCameraByName`, used for its truthiness only:
whether some camera in the scene carries the given name. -/
def findCameraByName (cams : List (Nat × TDECamera)) (nm : String) : Bool :=
  cams.any fun c => c.2.name == nm

/-- Embedding of `tde4.setCameraName`. -/
def setCameraName (cams : List (Nat × TDECamera)) (camId : Nat) (nm : String) :
    List (Nat × TDECamera) :=
  setCam (fun cam => { cam with name := nm }) camId cams

/-- Embedding of `tde4.setCameraSequenceAttr`. -/
def setCameraSequenceAttr (cams : List (Nat × TDECamera)) (camId : Nat)
    (start stop step : Int) : List (Nat × TDECamera) :=
  setCam (fun cam => { cam with seqAttr := some (start, stop, step) }) camId cams

/-- Embedding of `tde4.setCameraFrameOffset`. -/
def setCameraFrameOffset (cams : List (Nat × TDECamera)) (camId : Nat)
    (off : Int) : List (Nat × TDECamera) :=
  setCam (fun cam => { cam with frameOffset := some off }) camId cams

/-- Embedding of `tde4.setCameraFrameRangeCalculationFlag`. -/
def setCameraFrameRangeCalculationFlag (cams : List (Nat × TDECamera))
    (camId : Nat) (fl : Int) : List (Nat × TDECamera) :=
  setCam (fun cam => { cam with rangeCalcFlag := some fl }) camId cams

/-- Embedding of `tde4.setCameraPath`. -/
def setCameraPath (cams : List (Nat × TDECamera)) (camId : Nat) (p : String) :
    List (Nat × TDECamera) :=
  setCam (fun cam => { cam with camPath := some p }) camId cams

/-- Python's `str.startswith`, over the character lists of the two strings
(Lean's own `String.startsWith` works on byte positions, which the kernel
cannot evaluate). -/
def pyStartsWith (s pre : String) : Bool :=
  pre.toList.isPrefixOf s.toList

/-- Body of the per-camera loop of `TDE4Actions._import_image_seq`
(lines 233-252): read the current camera name; if it already starts with the
context entity's name, skip renaming, otherwise run the collision loop and
rename; then set the sequence attribute, the frame offset (to `start`), the
frame-range-calculation flag (to 1) and the camera path.  `none` models the
(unreachable in practice) exhaustion of the renaming loop's fuel. -/
def importCamBody (fuel : Nat) (ctxName : String)
    (cams : List (Nat × TDECamera)) (camId : Nat)
    (start stop step : Int) (pth : String) : Option (List (Nat × TDECamera)) :=
  let current_name := getCameraName cams camId
  let renamed :=
    if pyStartsWith current_name ctxName then some cams
    else
      match assignCameraName (findCameraByName cams) ctxName fuel 0 with
      | some cam_name => some (setCameraName cams camId cam_name)
      | none => none
  renamed.map fun c =>
    setCameraPath
      (setCameraFrameRangeCalculationFlag
        (setCameraFrameOffset
          (setCameraSequenceAttr c camId start stop step) camId start)
        camId 1)
      camId pth

/-- Calls `SceneOperation.execute` makes against the `tde4` host API. -/
inductive TDE4Call where
  | getProjectPath
  | loadProject (path : String)
  | saveProject (path : String)
deriving DecidableEq

/-- Embedding of `SceneOperation.execute` from
`scene_operation_tk-3dequalizer.py`.  `projectPath` is what
`tde4.getProjectPath()` currently returns; the result is the list of host
calls issued, in order, together with the hook's return value. -/
def sceneOperationExecute (projectPath : String)
    (operation file_path : String) : List TDE4Call × Option String :=
  if operation = "current_path" then
    ([.getProjectPath], some projectPath)
  else if operation = "open" then
    ([.loadProject file_path], none)
  else if operation = "save" then
    ([.getProjectPath, .saveProject projectPath], none)
  else
    ([], none)

/-- Fixture: glob result for four consecutive frames 1001..1004. -/
def globConsecutive : String → List String := fun _ =>
  ["/seq/shot.1001.jpg", "/seq/shot.1002.jpg", "/seq/shot.1003.jpg", "/seq/shot.1004.jpg"]

/-- Fixture: glob result for frames 1001, 1002, 1004 (inconsistent steps). -/
def globInconsistent : String → List String := fun _ =>
  ["/seq/shot.1001.jpg", "/seq/shot.1002.jpg", "/seq/shot.1004.jpg"]

/-- Fixture: glob result with no matching file on disk. -/
def globEmpty : String → List String := fun _ => []

/-- Fixture: glob result with exactly one matching file. -/
def globSingle : String → List String := fun _ => ["/seq/shot.1001.jpg"]

/-- Fixture: glob result with one file carrying no dot-delimited digit run. -/
def globNoNumbers : String → List String := fun _ => ["/seq/shot.abcd.jpg"]

/-- Fixture: an execute-action model that records each dispatched action
name in a trace and raises on the action named "boom". -/
def demoExec : String → Unit → Unit → List String → List String × Option String :=
  fun nm _ _ s =>
    if nm = "boom" then (s ++ [nm], some "failure") else (s ++ [nm], none)

/-- Fixture: a loader action with a given name and trivial payloads. -/
def demoAction (nm : String) : LoaderAction Unit Unit :=
  { name := nm, sg_publish_data := (), params := () }

/-- Fixture: a two-camera scene; camera 1 is already named after the shot. -/
def demoCams : List (Nat × TDECamera) :=
  [(1, { name := "shot010_cam" }), (2, { name := "other" })]

/-- Fixture: the expected state of camera 1 of `demoCams` after an import of
frames 1001..1004 with step 1. -/
def demoCamAfterImport : TDECamera :=
  { name := "shot010_cam", seqAttr := some (1001, 1004, 1),
    frameOffset := some 1001, rangeCalcFlag := some 1,
    camPath := some "/seq/shot.####.jpg" }

theorem consecDiffs_cons (a b : Int) (rest : List Int) :
    consecDiffs (a :: b :: rest) = (b - a) :: consecDiffs (b :: rest) := rfl

theorem consecDiffs_of_isAP (d : Int) :
    ∀ ns : List Int, isAP d ns = true →
      consecDiffs ns = List.replicate (ns.length - 1) d
  | [], _ => rfl
  | [_], _ => rfl
  | a :: b :: rest, h => by
    rw [isAP, Bool.and_eq_true, beq_iff_eq] at h
    have ih := consecDiffs_of_isAP d (b :: rest) h.2
    rw [consecDiffs_cons, ih, h.1]
    simp [List.replicate]

theorem groupKeysAux_replicate (d : Int) :
    ∀ m : Nat, groupKeysAux d (List.replicate m d) = []
  | 0 => rfl
  | m + 1 => by
    rw [List.replicate, groupKeysAux]
    simp [groupKeysAux_replicate d m]

theorem stepsOf_of_isAP (d : Int) (ns : List Int) (h2 : 2 ≤ ns.length)
    (h : isAP d ns = true) : stepsOf ns = [d] := by
  have hd := consecDiffs_of_isAP d ns h
  obtain ⟨m, hm⟩ : ∃ m, ns.length - 1 = m + 1 := ⟨ns.length - 2, by omega⟩
  rw [stepsOf, hd, hm, List.replicate, groupKeys, groupKeysAux_replicate]

/-- C1: for a template whose `%0Nd` placeholder matches at least two files
whose sorted frame numbers form an arithmetic progression with common
difference `d`, the resolver returns the path with the placeholder replaced
by `N` hash characters, the minimum frame as start, the maximum frame as
end, and `d` as step. -/
theorem resolve_arithmetic_progression
    (globfn : String → List String) (path : String)
    (frame_spec widthDigits : List Char) (files : List String)
    (ns : List Int) (d mn mx : Int)
    (hspec : searchSpec path.toList = some (frame_spec, widthDigits))
    (hfiles : globfn (String.mk (pyReplace path.toList frame_spec ['*'])) = files)
    (hne : files ≠ [])
    (hns : get_frame_numbers files = ns)
    (hlen : 2 ≤ ns.length)
    (hap : isAP d ns = true)
    (hmn : ns.min? = some mn)
    (hmx : ns.max? = some mx) :
    get_hash_path_and_range_info_from_seq globfn path =
      .ok (String.mk (pyReplace path.toList frame_spec
        (List.replicate (digitsToNat widthDigits) '#')), mn, mx, d) := by
  have hsteps : stepsOf ns = [d] := stepsOf_of_isAP d ns hlen hap
  unfold get_hash_path_and_range_info_from_seq
  rw [hspec]
  simp only [hfiles, hns, hsteps, if_neg hne, List.length_singleton,
    lt_irrefl, if_false, hmn, hmx, List.head?]

theorem resolve_arithmetic_progression_witness :
    get_hash_path_and_range_info_from_seq globConsecutive "/seq/shot.%04d.jpg" =
      .ok ("/seq/shot.####.jpg", 1001, 1004, 1) := by
  have h := resolve_arithmetic_progression globConsecutive "/seq/shot.%04d.jpg"
    ['%', '0', '4', 'd'] ['4'] (globConsecutive "") [1001, 1002, 1003, 1004]
    1 1001 1004 rfl rfl (by decide) (by decide) (by decide) (by decide) rfl rfl
  exact h

/-- C2: for a template whose placeholder matches at least two files, the
resolver fails with the step-consistency `ValueError` exactly when the
consecutive differences of the sorted extracted frame numbers split into two
or more maximal runs of equal difference. -/
theorem resolve_inconsistent_steps_iff
    (globfn : String → List String) (path : String)
    (frame_spec widthDigits : List Char) (files : List String)
    (hspec : searchSpec path.toList = some (frame_spec, widthDigits))
    (hfiles : globfn (String.mk (pyReplace path.toList frame_spec ['*'])) = files)
    (h2 : 2 ≤ files.length) :
    (get_hash_path_and_range_info_from_seq globfn path =
        .error .inconsistentSteps
      ↔ 2 ≤ (stepsOf (get_frame_numbers files)).length) := by
  have hne : files ≠ [] := by
    intro h
    rw [h] at h2
    simp at h2
  unfold get_hash_path_and_range_info_from_seq
  rw [hspec]
  simp only [hfiles, if_neg hne]
  by_cases hlen : 1 < (stepsOf (get_frame_numbers files)).length
  · rw [if_pos hlen]
    exact iff_of_true rfl (by omega)
  · rw [if_neg hlen]
    constructor
    · intro h
      exfalso
      split at h
      · simp at h
      · split at h
        · simp at h
        · split at h
          · simp at h
          · simp at h
    · intro h
      omega

theorem resolve_inconsistent_steps_iff_witness :
    get_hash_path_and_range_info_from_seq globInconsistent "/seq/shot.%04d.jpg" =
      .error .inconsistentSteps :=
  (resolve_inconsistent_steps_iff globInconsistent "/seq/shot.%04d.jpg"
    ['%', '0', '4', 'd'] ['4'] (globInconsistent "") rfl rfl
    (by decide)).mpr (by decide)

/-- C3: for a template whose placeholder matches zero files on disk, the
resolver fails with `FileExistenceError` carrying the original, still
unresolved template path. -/
theorem resolve_no_files_file_existence
    (globfn : String → List String) (path : String)
    (frame_spec widthDigits : List Char)
    (hspec : searchSpec path.toList = some (frame_spec, widthDigits))
    (hempty : globfn (String.mk (pyReplace path.toList frame_spec ['*'])) = []) :
    get_hash_path_and_range_info_from_seq globfn path =
      .error (.fileExistence path) := by
  unfold get_hash_path_and_range_info_from_seq
  rw [hspec]
  simp only [hempty]
  exact if_pos trivial

theorem resolve_no_files_file_existence_witness :
    get_hash_path_and_range_info_from_seq globEmpty "/seq/shot.%04d.jpg" =
      .error (.fileExistence "/seq/shot.%04d.jpg") :=
  resolve_no_files_file_existence globEmpty "/seq/shot.%04d.jpg"
    ['%', '0', '4', 'd'] ['4'] rfl rfl

/-- C4: for a template path without a `%0Nd` placeholder, the resolver
returns the path unchanged with start, end and step all 1, for every
possible file system (so no enumeration can influence the result). -/
theorem resolve_no_placeholder_trivial (path : String)
    (hnone : searchSpec path.toList = none) :
    ∀ globfn : String → List String,
      get_hash_path_and_range_info_from_seq globfn path = .ok (path, 1, 1, 1) := by
  intro globfn
  unfold get_hash_path_and_range_info_from_seq
  rw [hnone]

theorem resolve_no_placeholder_trivial_witness :
    get_hash_path_and_range_info_from_seq globConsecutive "/seq/plate.jpg" =
      .ok ("/seq/plate.jpg", 1, 1, 1) :=
  resolve_no_placeholder_trivial "/seq/plate.jpg" (by decide) globConsecutive

/-- C5 (code bug): with exactly one matched file the `groupby` loop never
runs, so `steps` stays empty and line 96's `steps[0]` raises `IndexError`
instead of returning the documented tuple; the resolver does not succeed
with step 1 as the spec states. -/
theorem resolve_single_file_index_error :
    get_hash_path_and_range_info_from_seq globSingle "/seq/shot.%04d.jpg" =
      .error .indexOutOfRange := rfl

/-- C9: when the placeholder matches a non-empty set of files none of which
contains a dot-delimited digit run, the extracted number list is empty and
the resolver raises the `ValueError` of `min()` on an empty sequence — an
error distinct from both `FileExistenceError` and the step-consistency
`ValueError`. -/
theorem resolve_no_frame_numbers_min_error
    (globfn : String → List String) (path : String)
    (frame_spec widthDigits : List Char) (files : List String)
    (hspec : searchSpec path.toList = some (frame_spec, widthDigits))
    (hfiles : globfn (String.mk (pyReplace path.toList frame_spec ['*'])) = files)
    (hne : files ≠ [])
    (hnums : get_frame_numbers files = []) :
    get_hash_path_and_range_info_from_seq globfn path = .error .minEmptySeq := by
  unfold get_hash_path_and_range_info_from_seq
  rw [hspec]
  simp only [hfiles, hnums, if_neg hne]
  rfl

theorem resolve_no_frame_numbers_min_error_witness :
    get_hash_path_and_range_info_from_seq globNoNumbers "/seq/shot.%04d.jpg" =
      .error .minEmptySeq :=
  resolve_no_frame_numbers_min_error globNoNumbers "/seq/shot.%04d.jpg"
    ['%', '0', '4', 'd'] ['4'] (globNoNumbers "") rfl rfl (by decide) (by decide)

/-- C6: `execute_multiple_actions` dispatches its list strictly in order;
when an action raises after a prefix of successful actions, the state the
prefix produced is kept as threaded into the failing action, the error
propagates, and the remaining actions — quantified arbitrarily — are never
dispatched. -/
theorem execute_multiple_actions_aborts
    {σ α β ε : Type} (execA : String → β → α → σ → σ × Option ε)
    (pre : List (LoaderAction α β)) (bad : LoaderAction α β)
    (post : List (LoaderAction α β)) (s s1 s2 : σ) (e : ε)
    (hpre : execute_multiple_actions execA pre s = (s1, none))
    (hbad : execA bad.name bad.params bad.sg_publish_data s1 = (s2, some e)) :
    execute_multiple_actions execA (pre ++ bad :: post) s = (s2, some e) := by
  induction pre generalizing s with
  | nil =>
    simp only [execute_multiple_actions, Prod.mk.injEq] at hpre
    obtain ⟨rfl, -⟩ := hpre
    simp [execute_multiple_actions, hbad]
  | cons act rest ih =>
    simp only [List.cons_append, execute_multiple_actions] at hpre ⊢
    rcases hx : execA act.name act.params act.sg_publish_data s with ⟨t, eo⟩
    rw [hx] at hpre
    cases eo with
    | none => exact ih t hpre
    | some e' => simp at hpre

theorem execute_multiple_actions_aborts_witness :
    execute_multiple_actions demoExec
      [demoAction "import_image_seq", demoAction "boom", demoAction "other"] [] =
      (["import_image_seq", "boom"], some "failure") :=
  execute_multiple_actions_aborts demoExec [demoAction "import_image_seq"]
    (demoAction "boom") [demoAction "other"] [] ["import_image_seq"]
    ["import_image_seq", "boom"] "failure" rfl rfl

theorem assignCameraName_aux (find : String → Bool) (base : String) :
    ∀ (fuel c k : Nat), c ≤ k → k < c + fuel →
      find (camNameCandidate base k) = false →
      (∀ j, c ≤ j → j < k → find (camNameCandidate base j) = true) →
      assignCameraName find base fuel c = some (camNameCandidate base k)
  | 0, c, k, hck, hkf, _, _ => absurd hkf (by omega)
  | fuel + 1, c, k, hck, hkf, hfree, hbusy => by
    simp only [assignCameraName]
    by_cases hc : c = k
    · subst hc
      simp [hfree]
    · rw [if_pos (hbusy c le_rfl (by omega))]
      exact assignCameraName_aux find base fuel (c + 1) k (by omega) (by omega)
        hfree (fun j hj1 hj2 => hbusy j (by omega) hj2)

/-- C7: the collision loop picks the first candidate of the sequence
`base, base__01, base__02, ...` that no existing camera carries, with the
two-digit zero-padded counter incremented once per collision; the fuel
hypothesis only requires the embedding's loop bound to be large enough. -/
theorem assignCameraName_first_free (find : String → Bool) (base : String)
    (k fuel : Nat)
    (hfree : find (camNameCandidate base k) = false)
    (hbusy : ∀ j, j < k → find (camNameCandidate base j) = true)
    (hfuel : k < fuel) :
    assignCameraName find base fuel 0 = some (camNameCandidate base k) :=
  assignCameraName_aux find base fuel 0 k (Nat.zero_le k) (by omega) hfree
    (fun j _ hj => hbusy j hj)

/-- Fixture: one existing camera named "shot010". -/
def findOneCam : String → Bool := fun nm => nm == "shot010"

/-- Fixture: existing cameras named "shot010" and "shot010__01". -/
def findTwoCams : String → Bool := fun nm =>
  nm == "shot010" || nm == "shot010__01"

theorem assignCameraName_first_free_witness :
    assignCameraName findOneCam "shot010" 3 0 = some "shot010__01" ∧
    assignCameraName findTwoCams "shot010" 3 0 = some "shot010__02" := by
  constructor
  · exact assignCameraName_first_free findOneCam "shot010" 1 3 (by decide)
      (by intro j hj; interval_cases j; decide) (by omega)
  · exact assignCameraName_first_free findTwoCams "shot010" 2 3 (by decide)
      (by intro j hj; interval_cases j <;> decide) (by omega)

/-- C8: `SceneOperation.execute` returns the host's current project path
for "current_path"; loads the supplied file for "open"; saves the current
project to its own host-reported path, ignoring the supplied argument, for
"save"; and every other operation issues no host call and returns `None`. -/
theorem scene_operation_execute_cases (projectPath file_path : String) :
    sceneOperationExecute projectPath "current_path" file_path =
        ([.getProjectPath], some projectPath)
    ∧ sceneOperationExecute projectPath "open" file_path =
        ([.loadProject file_path], none)
    ∧ sceneOperationExecute projectPath "save" file_path =
        ([.getProjectPath, .saveProject projectPath], none)
    ∧ ∀ op : String, op ≠ "current_path" → op ≠ "open" → op ≠ "save" →
        sceneOperationExecute projectPath op file_path = ([], none) := by
  refine ⟨rfl, rfl, rfl, ?_⟩
  intro op h1 h2 h3
  simp [sceneOperationExecute, h1, h2, h3]

theorem scene_operation_execute_cases_witness :
    sceneOperationExecute "/proj/shot010.3de" "close" "/tmp/other.3de" =
      ([], none) :=
  (scene_operation_execute_cases "/proj/shot010.3de" "/tmp/other.3de").2.2.2
    "close" (by decide) (by decide) (by decide)

theorem lookup_setCam (f : TDECamera → TDECamera) (camId id : Nat) :
    ∀ cams : List (Nat × TDECamera),
      (setCam f camId cams).lookup id =
        if id = camId then (cams.lookup id).map f else cams.lookup id
  | [] => by simp [setCam]
  | (k, v) :: cams => by
    have ih := lookup_setCam f camId id cams
    show List.lookup id
        ((if k = camId then (k, f v) else (k, v)) :: setCam f camId cams) =
      if id = camId then (((k, v) :: cams).lookup id).map f
      else ((k, v) :: cams).lookup id
    by_cases hk : k = camId <;> by_cases hid : id = k
    · subst hk
      subst hid
      simp [List.lookup_cons]
    · subst hk
      have hbeq : (id == k) = false := by simp [hid]
      simp [List.lookup_cons, hbeq, ih, hid]
    · subst hid
      simp [List.lookup_cons, hk]
    · have hbeq : (id == k) = false := by simp [hid]
      simp [List.lookup_cons, hbeq, ih, hk]

theorem getCameraName_setCam (f : TDECamera → TDECamera)
    (hf : ∀ cam, (f cam).name = cam.name) (camId id : Nat)
    (cams : List (Nat × TDECamera)) :
    getCameraName (setCam f camId cams) id = getCameraName cams id := by
  rw [getCameraName, getCameraName, lookup_setCam]
  by_cases hid : id = camId
  · rw [if_pos hid]
    cases h : cams.lookup id with
    | none => rfl
    | some cam => simp [hf]
  · rw [if_neg hid]

/-- C10: when the selected camera's current name already starts with the
context entity's name, the import body renames nothing — every camera keeps
its name — while the camera still receives the sequence attribute, the
frame offset, the frame-range-calculation flag and the normalized path. -/
theorem importCamBody_prefixed_name_not_renamed
    (fuel : Nat) (ctxName : String) (cams : List (Nat × TDECamera))
    (camId : Nat) (a b st : Int) (pth : String) (cam : TDECamera)
    (hstart : pyStartsWith (getCameraName cams camId) ctxName = true)
    (hmem : cams.lookup camId = some cam) :
    ∃ cams',
      importCamBody fuel ctxName cams camId a b st pth = some cams'
      ∧ (∀ id, getCameraName cams' id = getCameraName cams id)
      ∧ cams'.lookup camId = some { cam with
          seqAttr := some (a, b, st), frameOffset := some a,
          rangeCalcFlag := some 1, camPath := some pth } := by
  refine ⟨setCameraPath
      (setCameraFrameRangeCalculationFlag
        (setCameraFrameOffset
          (setCameraSequenceAttr cams camId a b st) camId a)
        camId 1)
      camId pth, ?_, ?_, ?_⟩
  · simp only [importCamBody, hstart, if_true]
    rfl
  · intro id
    simp only [setCameraPath, setCameraFrameRangeCalculationFlag,
      setCameraFrameOffset, setCameraSequenceAttr]
    rw [getCameraName_setCam (fun cam => { cam with camPath := some pth })
        (fun _ => rfl) camId id _,
      getCameraName_setCam (fun cam => { cam with rangeCalcFlag := some 1 })
        (fun _ => rfl) camId id _,
      getCameraName_setCam (fun cam => { cam with frameOffset := some a })
        (fun _ => rfl) camId id _,
      getCameraName_setCam (fun cam => { cam with seqAttr := some (a, b, st) })
        (fun _ => rfl) camId id _]
  · rw [setCameraPath, lookup_setCam, if_pos rfl,
      setCameraFrameRangeCalculationFlag, lookup_setCam, if_pos rfl,
      setCameraFrameOffset, lookup_setCam, if_pos rfl,
      setCameraSequenceAttr, lookup_setCam, if_pos rfl, hmem]
    rfl

theorem importCamBody_prefixed_name_not_renamed_witness :
    ∃ cams',
      importCamBody 5 "shot010" demoCams 1 1001 1004 1 "/seq/shot.####.jpg" =
        some cams'
      ∧ (∀ id, getCameraName cams' id = getCameraName demoCams id)
      ∧ cams'.lookup 1 = some demoCamAfterImport :=
  importCamBody_prefixed_name_not_renamed 5 "shot010" demoCams 1 1001 1004 1
    "/seq/shot.####.jpg" { name := "shot010_cam" } (by decide) (by decide)
